import Mathlib

/-!
Verification development for the appifylab-task microservices repository.

The repository's behavioural core is the error-handling / response-normalization
layer (`src/auth/core/error.py`), the structured JSON logger
(`src/order/core/logger.py`), the weather response schemas
(`src/order/app/weather/schemas.py`) and the weather service adapter (whose
tests live in `src/product/tests/.../weather_service_test.py`).

Python dictionaries are embedded as insertion-ordered association lists
`List (String × J)` where `J` is a JSON-like value type standing for the
dynamic `Any` values the code stores.  Dict update keeps the position of an
existing key and appends fresh keys, matching CPython semantics.  Logging
side effects cannot alter a response's content, but their raise paths are
control flow and are modelled: the exception handlers return
`Except PyError JSONResponse`, capturing the `NameError` from the undefined
name `get_logger` (error.py line 282) and the `AttributeError` from
`RequestLogger`'s unguarded `request.state.request_id` access (logger.py
lines 179-196); `Logger.setup` likewise models `setLevel`'s `ValueError`.
-/

/-- JSON-like value type modelling the dynamic `Any` values carried in
`details`/`context` dictionaries and log payloads. -/
inductive J where
  | null : J
  | b : Bool → J
  | i : Int → J
  | s : String → J
  | arr : List J → J
  | obj : List (String × J) → J
deriving Repr

/-- Python `None`-or-string coerced into a `J` value (used where the code
stores an `Optional[str]` inside a dict). -/
def jOfOptStr : Option String → J
  | none => J.null
  | some v => J.s v

/-- Dictionary lookup, `d.get(k)` / `d[k]`: value of the first entry with the
given key. -/
def getKey (m : List (String × J)) (k : String) : Option J :=
  (m.find? (fun p => p.1 == k)).map Prod.snd

/-- Dictionary assignment `d[k] = v`: replaces the value at an existing key in
place (CPython keeps the key's insertion position) and appends a fresh key. -/
def setKey : List (String × J) → String → J → List (String × J)
  | [], k, v => [(k, v)]
  | p :: m, k, v => if p.1 == k then (k, v) :: m else p :: setKey m k v

/-- Dictionary merge `a.update(b)` (also `{**a, **b}`): assigns every entry of
`b` into `a` in order. -/
def updateAssoc (base ext : List (String × J)) : List (String × J) :=
  ext.foldl (fun acc p => setKey acc p.1 p.2) base

/-- One optional pydantic field of a serialized model: present when set,
absent when `None` (`exclude_none=True`). -/
def optField (k : String) : Option J → List (String × J)
  | none => []
  | some v => [(k, v)]

/-- Model of `ErrorDetail` (src/auth/core/error.py lines 42-48): one field-level
validation failure. -/
structure ErrorDetail where
  location : Option String
  message : String
  type : String
  code : Option String
deriving Repr, DecidableEq

/-- Model of `ErrorResponse` (src/auth/core/error.py lines 51-60): the uniform error
envelope.  `details` is a Python `Dict[str, Any]`. -/
structure ErrorResponse where
  code : Int
  message : String
  error : String
  request_id : Option String
  trace_id : Option String
  details : Option (List (String × J))
  errors : Option (List ErrorDetail)

/-- Serialization `ErrorDetail.model_dump(exclude_none=True)`: fields in declaration order,
`None`-valued optional fields omitted. -/
def ErrorDetail.dump (d : ErrorDetail) : List (String × J) :=
  optField "location" (d.location.map J.s)
    ++ [("message", J.s d.message), ("type", J.s d.type)]
    ++ optField "code" (d.code.map J.s)

/-- Serialization `ErrorResponse.model_dump(exclude_none=True)`: fields in declaration
order, `None`-valued optional fields omitted, nested models dumped
recursively. -/
def ErrorResponse.dump (r : ErrorResponse) : List (String × J) :=
  [("code", J.i r.code), ("message", J.s r.message), ("error", J.s r.error)]
    ++ optField "request_id" (r.request_id.map J.s)
    ++ optField "trace_id" (r.trace_id.map J.s)
    ++ optField "details" (r.details.map J.obj)
    ++ optField "errors"
        (r.errors.map (fun l => J.arr (l.map (fun d => J.obj d.dump))))

/-- Pydantic validation of a required string field. -/
def parseStrJ : J → Option String
  | J.s v => some v
  | _ => none

/-- Pydantic validation of a required int field. -/
def parseIntJ : J → Option Int
  | J.i n => some n
  | _ => none

/-- Pydantic validation of an `Optional[str]` field: an absent key and an
explicit `null` both become `None`. -/
def parseOptStrField (m : List (String × J)) (k : String) : Option (Option String) :=
  match getKey m k with
  | none => some none
  | some J.null => some none
  | some (J.s v) => some (some v)
  | some _ => none

/-- Pydantic validation of one serialized `ErrorDetail`. -/
def ErrorDetail.parse (m : List (String × J)) : Option ErrorDetail := do
  let location ← parseOptStrField m "location"
  let message ← (getKey m "message").bind parseStrJ
  let ty ← (getKey m "type").bind parseStrJ
  let code ← parseOptStrField m "code"
  pure { location := location, message := message, type := ty, code := code }

/-- Pydantic validation of the `Optional[Dict[str, Any]]` field `details`. -/
def parseOptObjField (m : List (String × J)) (k : String) :
    Option (Option (List (String × J))) :=
  match getKey m k with
  | none => some none
  | some J.null => some none
  | some (J.obj o) => some (some o)
  | some _ => none

/-- Pydantic validation of one element of the `errors` list. -/
def parseDetailJ : J → Option ErrorDetail
  | J.obj o => ErrorDetail.parse o
  | _ => none

/-- Pydantic validation of the `Optional[List[ErrorDetail]]` field `errors`. -/
def parseOptErrorsField (m : List (String × J)) :
    Option (Option (List ErrorDetail)) :=
  match getKey m "errors" with
  | none => some none
  | some J.null => some none
  | some (J.arr l) => (l.mapM parseDetailJ).map some
  | some _ => none

/-- Pydantic validation of a serialized `ErrorResponse`. -/
def ErrorResponse.parse (m : List (String × J)) : Option ErrorResponse := do
  let code ← (getKey m "code").bind parseIntJ
  let message ← (getKey m "message").bind parseStrJ
  let error ← (getKey m "error").bind parseStrJ
  let request_id ← parseOptStrField m "request_id"
  let trace_id ← parseOptStrField m "trace_id"
  let details ← parseOptObjField m "details"
  let errors ← parseOptErrorsField m
  pure { code := code, message := message, error := error,
         request_id := request_id, trace_id := trace_id,
         details := details, errors := errors }

/-- An arbitrary Python exception value as the handlers observe it:
`type(exc).__name__`, `str(exc)`, `exc.__module__`, `exc.__cause__` (type name
and message of the immediate causal predecessor), and the duck-typed
`error_code` / `context` attributes probed by `APIError.from_exception`. -/
structure PyExc where
  type_name : String
  str : String
  module : Option String
  cause : Option (String × String)
  error_code : Option String
  context : Option (List (String × J))
deriving Repr

/-- Model of `AppError` (src/auth/core/error.py lines 63-99): application-level error
with context support.  The constructor's logging side effect does not touch
the stored fields. -/
structure AppError where
  message : String
  original_error : Option PyExc
  context : List (String × J)
  error_code : Option String
deriving Repr

/-- Constructor `AppError.__init__(message, original_error=None, context=None,
error_code=None)`: stores the message, the optional wrapped fault,
`context or {}` and the optional error code. -/
def AppError.make (message : String) (original_error : Option PyExc)
    (context : Option (List (String × J))) (error_code : Option String) :
    AppError :=
  { message := message, original_error := original_error,
    context := context.getD [], error_code := error_code }

/-- Model of `APIError` (src/auth/core/error.py lines 102-145): transport-facing error
with status code, message, slug, details and logging context. -/
structure APIError where
  status_code : Int
  message : String
  error : String
  details : List (String × J)
  context : List (String × J)
  headers : List (String × String)
deriving Repr

/-- The fixed status-code → slug dictionary of
`APIError._default_error_code` (src/auth/core/error.py lines 150-162). -/
def errorCodes : List (Int × String) :=
  [(400, "bad_request"),
   (401, "unauthorized"),
   (403, "forbidden"),
   (404, "not_found"),
   (409, "conflict"),
   (422, "validation_error"),
   (429, "rate_limit_exceeded"),
   (500, "internal_server_error"),
   (502, "bad_gateway"),
   (503, "service_unavailable"),
   (504, "gateway_timeout")]

/-- Derivation `APIError._default_error_code(status_code)`:
`error_codes.get(status_code, f"http_{status_code}")`. -/
def defaultErrorCode (status_code : Int) : String :=
  (((errorCodes.find? (fun p => p.1 == status_code)).map Prod.snd).getD
    ("http_" ++ toString status_code))

/-- Constructor `APIError.__init__(status_code, message, error=None, details=None,
headers=None, context=None)`: `error` defaults to the slug derived from the
status code, `details`/`context` default to `{}`, `headers` to none.  The
logging side effect of construction does not touch the stored fields. -/
def APIError.make (status_code : Int) (message : String)
    (error : Option String) (details : Option (List (String × J)))
    (headers : Option (List (String × String)))
    (context : Option (List (String × J))) : APIError :=
  { status_code := status_code, message := message,
    error := error.getD (defaultErrorCode status_code),
    details := details.getD [], context := context.getD [],
    headers := headers.getD [] }

/-- Classmethod `APIError.internal_server_error(message="Internal server error",
**kwargs)`: sugar for construction with status 500
(src/auth/core/error.py lines 207-212). -/
def APIError.internal_server_error (message : String)
    (details : Option (List (String × J)))
    (context : Option (List (String × J))) : APIError :=
  APIError.make 500 message none details none context

/-- Classmethod `APIError.from_exception(exc, status_code=500, context=None)`
(src/auth/core/error.py lines 236-277).  The formatted traceback read from
interpreter state is passed in as the ambient line list `tb`
(`traceback.format_exc(limit=10).splitlines()`). -/
def APIError.from_exception (exc : PyExc) (tb : List String)
    (status_code : Int) (context : Option (List (String × J))) : APIError :=
  let error_context := context.getD []
  let exc_details : List (String × J) :=
    [("type", J.s exc.type_name),
     ("module", J.s (exc.module.getD "unknown"))]
  let exc_details :=
    match exc.cause with
    | some c =>
        exc_details ++
          [("cause", J.obj [("type", J.s c.1), ("message", J.s c.2)])]
    | none => exc_details
  let error_context :=
    match exc.context with
    | some c => updateAssoc error_context c
    | none => error_context
  let tb_summary := if tb.length > 5 then tb.drop (tb.length - 5) else tb
  let exc_details :=
    exc_details ++ [("traceback_summary", J.arr (tb_summary.map J.s))]
  let error_code := defaultErrorCode status_code
  let error_code :=
    match exc.error_code with
    | some c => if c = "" then error_code else c
    | none => error_code
  APIError.make status_code
    (if exc.str = "" then "An unexpected error occurred" else exc.str)
    (some error_code) (some exc_details) none (some error_context)

/-- Model of `request.state`: the request-scoped correlation attributes the handlers
read with `getattr(request.state, _, None)`.  An absent attribute is `none`. -/
structure RequestState where
  request_id : Option String
  trace_id : Option String
  span_id : Option String
deriving Repr

/-- The parts of a FastAPI `Request` the handlers read. -/
structure Request where
  state : RequestState
  path : String
  method : String
  path_params : List (String × String)
  query_params : List (String × String)
deriving Repr

/-- The parts of a `JSONResponse` a handler returns: HTTP status, serialized
body content and extra headers. -/
structure JSONResponse where
  status_code : Int
  content : List (String × J)
  headers : List (String × String)
deriving Repr

/-- Python exception outcomes of an embedded statement: the `AttributeError`
from reading an absent `request.state` attribute, the `NameError` from
referencing an undefined module-level name, and the `ValueError` from
`logging.Logger.setLevel` on an unrecognized level name. -/
inductive PyError where
  | attributeError
  | nameError
  | valueError
deriving Repr, DecidableEq

/-- The `ErrorResponse` model built by `handle_api_error`
(src/auth/core/error.py lines 307-315). -/
def apiErrorResponse (request : Request) (exc : APIError) : ErrorResponse :=
  { code := exc.status_code, message := exc.message, error := exc.error,
    details := some exc.details,
    request_id := request.state.request_id,
    trace_id := request.state.trace_id,
    errors := none }

/-- Handler `handle_api_error(request, exc)` (src/auth/core/error.py lines
280-321).  Its first statement `request_logger = get_logger(request)`
references the name `get_logger`, which is neither defined in the module nor
imported (the module imports only `Logger` and `get_request_logger` from
`core.logger`), so every call raises `NameError` before anything else runs;
`apiErrorResponse` above is the `ErrorResponse` that the unreachable
remainder (lines 307-321) would serialize with the error's own status code
and headers (`exc.headers or {}`). -/
def handle_api_error (request : Request) (exc : APIError) :
    Except PyError JSONResponse :=
  Except.error PyError.nameError

/-- One entry of `exc.errors()` for a request/pydantic validation failure:
`loc` is a tuple of strings and ints; `msg` and `type` are read with
`.get(_, default)`.  `loc` entries are embedded already converted by
`str(x)`. -/
structure ValidationItem where
  loc : Option (List String)
  msg : Option String
  type : Option String
deriving Repr

/-- The `ErrorDetail` built for one validation failure
(src/auth/core/error.py lines 333-341):
`location = " -> ".join(str(x) for x in error.get("loc", []))`,
`message = error.get("msg", "")`,
`type = error.get("type", "validation_error")`. -/
def validationDetail (e : ValidationItem) : ErrorDetail :=
  { location := some (String.intercalate " -> " (e.loc.getD [])),
    message := e.msg.getD "",
    type := e.type.getD "validation_error",
    code := none }

/-- The `ErrorResponse` built by `handle_validation_error`
(src/auth/core/error.py lines 368-375). -/
def validationErrorResponse (request : Request) (excErrors : List ValidationItem) :
    ErrorResponse :=
  { code := 422, message := "Request validation error",
    error := "validation_error",
    request_id := request.state.request_id,
    trace_id := request.state.trace_id,
    details := none,
    errors := some (excErrors.map validationDetail) }

/-- Handler `handle_validation_error(request, exc)` (src/auth/core/error.py
lines 324-380): builds the error details, then calls
`request_logger.warning(...)` (line 355) whose `RequestLogger` method
assigns `kwargs["request_id"] = request.state.request_id` without a fallback
(src/order/core/logger.py line 187) and therefore raises `AttributeError`
when the request carries no stored correlation id; otherwise it returns the
422 response serialized from `validationErrorResponse`. -/
def handle_validation_error (request : Request)
    (excErrors : List ValidationItem) : Except PyError JSONResponse :=
  match request.state.request_id with
  | none => Except.error PyError.attributeError
  | some _ =>
      Except.ok
        { status_code := 422,
          content := (validationErrorResponse request excErrors).dump,
          headers := [] }

/-- The `ErrorResponse` built by `handle_pydantic_validation_error`
(src/auth/core/error.py lines 418-425); only the top-level message differs
from the request-validation path. -/
def pydanticValidationErrorResponse (request : Request)
    (excErrors : List ValidationItem) : ErrorResponse :=
  { code := 422, message := "Data validation error",
    error := "validation_error",
    request_id := request.state.request_id,
    trace_id := request.state.trace_id,
    details := none,
    errors := some (excErrors.map validationDetail) }

/-- Handler `handle_pydantic_validation_error(request, exc)`
(src/auth/core/error.py lines 383-430): same control flow as
`handle_validation_error` — `request_logger.warning(...)` (line 406) raises
`AttributeError` when the request has no stored correlation id, else the
422 response is returned. -/
def handle_pydantic_validation_error (request : Request)
    (excErrors : List ValidationItem) : Except PyError JSONResponse :=
  match request.state.request_id with
  | none => Except.error PyError.attributeError
  | some _ =>
      Except.ok
        { status_code := 422,
          content := (pydanticValidationErrorResponse request excErrors).dump,
          headers := [] }

/-- The trace context `{"request_id": ..., "trace_id": ...}` resolved from
request state by the app-error and generic handlers. -/
def traceContext (request : Request) : List (String × J) :=
  [("request_id", jOfOptStr request.state.request_id),
   ("trace_id", jOfOptStr request.state.trace_id)]

/-- The `APIError` built by `handle_app_error`
(src/auth/core/error.py lines 442-491): a 500
`APIError.internal_server_error` whose message is the fixed generic text,
whose `details` carry the `AppError`'s own message and code, and whose
`details` are then merged with the trace context (`api_error.details.update`). -/
def appErrorToApiError (request : Request) (exc : AppError) : APIError :=
  let error_context : List (String × J) :=
    updateAssoc
      [("error_type", J.s "app_error"),
       ("error_code", jOfOptStr exc.error_code),
       ("path", J.s request.path),
       ("method", J.s request.method)]
      exc.context
  let api_error :=
    APIError.internal_server_error "An internal server error occurred"
      (some [("app_error_message", J.s exc.message),
             ("app_error_code", jOfOptStr exc.error_code)])
      (some error_context)
  { api_error with
      details := updateAssoc api_error.details (traceContext request) }

/-- Handler `handle_app_error(request, exc)` (src/auth/core/error.py lines
433-492): `request_logger.error(...)` (lines 467/476) raises
`AttributeError` when the request has no stored correlation id; otherwise
the `APIError` of `appErrorToApiError` is constructed (lines 483-490) and
handed to `handle_api_error`, whose first line raises `NameError`, so no
response is ever returned. -/
def handle_app_error (request : Request) (exc : AppError) :
    Except PyError JSONResponse :=
  match request.state.request_id with
  | none => Except.error PyError.attributeError
  | some _ => handle_api_error request (appErrorToApiError request exc)

/-- The merged logging/context dictionary passed by
`handle_generic_exception` into `APIError.from_exception`
(`{**error_context, **trace_context}`); the frame info and exception chain it
also carries only feed the log entry and the error's `context`, never the
response body fields the claims observe, and the traceback-derived frame
entries are ambient interpreter state passed in as `frame`. -/
def genericErrorContext (request : Request) (exc : PyExc)
    (frame : List (String × J)) : List (String × J) :=
  updateAssoc
    (updateAssoc
      [("error_type", J.s "unhandled_exception"),
       ("exception_class", J.s exc.type_name),
       ("exception_module", J.s (exc.module.getD "unknown")),
       ("path", J.s request.path),
       ("method", J.s request.method)]
      frame)
    (traceContext request)

/-- Handler `handle_generic_exception(request, exc)` (src/auth/core/error.py
lines 495-551): `request_logger.error(...)` (line 541) raises
`AttributeError` when the request has no stored correlation id; otherwise
the fault is classified with `APIError.from_exception` (default status 500)
and handed to `handle_api_error`, whose first line raises `NameError`.
`tb` and `frame` are the ambient traceback data. -/
def handle_generic_exception (request : Request) (exc : PyExc)
    (tb : List String) (frame : List (String × J)) :
    Except PyError JSONResponse :=
  match request.state.request_id with
  | none => Except.error PyError.attributeError
  | some _ =>
      handle_api_error request
        (APIError.from_exception exc tb 500
          (some (genericErrorContext request exc frame)))

/-- Ambient source-location/timestamp data the logging library stamps on a
record (`record.created` isoformat, `record.module`, `record.funcName`,
`record.lineno`). -/
structure SourceInfo where
  timestamp : String
  module : String
  funcName : String
  lineno : Int
deriving Repr

/-- A `logging.LogRecord` as `JSONFormatter.format` observes it: level name,
message, the optional `request_id` attribute, optional `exc_info` and the
optional `extra` attribute dict set by the wrapper methods. -/
structure LogRecord where
  levelname : String
  src : SourceInfo
  message : String
  request_id : Option String
  exc_info : Option PyExc
  extra : Option (List (String × J))
deriving Repr

/-- Formatter `JSONFormatter.format(record)` (src/order/core/logger.py lines 31-60):
base fields, then `request_id` if the record has that attribute, then
exception info if present, then `log_data.update(record.extra)` when the
`extra` attribute exists and is truthy (a present-but-empty dict is falsy). -/
def JSONFormatter.format (record : LogRecord) : List (String × J) :=
  let log_data : List (String × J) :=
    [("level", J.s record.levelname),
     ("timestamp", J.s record.src.timestamp),
     ("message", J.s record.message),
     ("module", J.s record.src.module),
     ("function", J.s record.src.funcName),
     ("line", J.i record.src.lineno)]
  let log_data :=
    match record.request_id with
    | some rid => log_data ++ [("request_id", J.s rid)]
    | none => log_data
  let log_data :=
    match record.exc_info with
    | some e =>
        log_data ++
          [("exception",
            J.obj [("type", J.s e.type_name), ("message", J.s e.str)])]
    | none => log_data
  match record.extra with
  | some ex => if ex.isEmpty then log_data else updateAssoc log_data ex
  | none => log_data

/-- A stream handler as the `Logger` state tracks it: its formatter kind. -/
inductive HandlerKind where
  | jsonFormatter
  | plainFormatter
deriving Repr, DecidableEq

/-- The mutable state of the process-wide `logging.Logger` named
`f"{config.cfg.title}_log"` that `Logger.setup` configures. -/
structure LoggerState where
  level : String
  handlers : List HandlerKind
  propagate : Bool
deriving Repr

/-- Model of Python `str.upper()` for the ASCII level names the logger deals
with: uppercase every character (structurally, so that it evaluates in the
kernel). -/
def String.pyUpper (s : String) : String :=
  String.mk (s.data.map Char.toUpper)

/-- The level names accepted by the logging library's `_checkLevel`
(CPython `logging._nameToLevel`): `Logger.setLevel` raises `ValueError` for
any other string. -/
def levelNames : List String :=
  ["CRITICAL", "FATAL", "ERROR", "WARN", "WARNING", "INFO", "DEBUG", "NOTSET"]

/-- Setup `Logger.setup(app=None, log_level="INFO", json_format=True)`
(src/order/core/logger.py lines 112-142): `logger.setLevel(log_level.upper())`
raises `ValueError` for a level name outside `levelNames` before any state is
touched; otherwise it sets the level, clears the existing handlers
(`logger.handlers = []`), disables propagation and attaches one freshly
built stream handler (`logger.addHandler(handler)`). -/
def Logger.setup (logger : LoggerState) (log_level : String)
    (json_format : Bool) : Except PyError LoggerState :=
  if log_level.pyUpper ∈ levelNames then
    let logger :=
      { logger with level := log_level.pyUpper, handlers := [],
                    propagate := false }
    let handler :=
      if json_format then HandlerKind.jsonFormatter
      else HandlerKind.plainFormatter
    Except.ok { logger with handlers := logger.handlers ++ [handler] }
  else Except.error PyError.valueError

/-- The logger state observable after a `Logger.setup` call: the new state on
success, the unchanged previous state when `setLevel` raised (the raise
happens before any mutation of the logger). -/
def Logger.setupState (logger : LoggerState) (log_level : String)
    (json_format : Bool) : LoggerState :=
  match Logger.setup logger log_level json_format with
  | Except.ok l => l
  | Except.error _ => logger

/-- One `info` call through the request-scoped logger returned by
`get_request_logger(request)` (src/order/core/logger.py lines 175-180):
`kwargs["request_id"] = request.state.request_id` reads the state attribute
directly — a request without a stored correlation id raises
`AttributeError` — then the record is emitted with
`extra={"extra": kwargs}` and rendered by `JSONFormatter.format`. -/
def requestLoggerInfo (request : Request) (src : SourceInfo)
    (message : String) (kwargs : List (String × J)) :
    Except PyError (List (String × J)) :=
  match request.state.request_id with
  | none => Except.error PyError.attributeError
  | some rid =>
      let kwargs := setKey kwargs "request_id" (J.s rid)
      Except.ok (JSONFormatter.format
        { levelname := "INFO", src := src, message := message,
          request_id := none, exc_info := none, extra := some kwargs })

/-- Model of `TemperatureData` (src/order/app/weather/schemas.py lines 9-13):
temperature is a string, not a number. -/
structure TemperatureData where
  temperature : String
  temp_unit : String
deriving Repr, DecidableEq

/-- The observable outcome of the one upstream HTTP call
`get_weather_data` performs: a request timeout, an HTTP error status raised
by `raise_for_status()`, any other exception, or a successful numeric
temperature reading (`json["main"]["temp"]`, in degrees Celsius). -/
inductive UpstreamOutcome where
  | timeout
  | httpError (status : Int)
  | otherError (exc : PyExc)
  | success (temp : ℚ)

/-- The classified fault `get_weather_data` raises. -/
inductive WeatherFailure where
  | api (e : APIError)
  | app (e : AppError)

/-- Modelled from the spec: the whole-degree rounding of
`WeatherService.get_weather_data` (the implementation
`app/weather/api/service.py` is not in the source tree; spec §4.4 and §8:
"converts a ... numeric reading to a rounded whole-degree Celsius string",
"round-half-up to nearest integer degree"). -/
def roundHalfUp (q : ℚ) : Int := (q + 1 / 2).floor

/-- Modelled from the spec: a `requests.HTTPError` for a non-404/401 upstream
status, the original fault wrapped on the fallthrough path. -/
def httpErrorExc (status : Int) : PyExc :=
  { type_name := "HTTPError", str := "HTTP Error: " ++ toString status,
    module := some "requests.exceptions", cause := none,
    error_code := none, context := none }

/-- Modelled from the spec: `WeatherService.get_weather_data(location)`
(the implementation `app/weather/api/service.py` is not in the source tree;
behaviour from spec §4.4/§8 and its unit tests
`src/product/tests/.../weather_service_test.py`): request timeout →
`APIError` 504 "Weather API timed out"; upstream HTTP 404 → `APIError` 404
"Weather data for {location} not found"; upstream HTTP 401 → `APIError` 400
"Invalid API key"; any other upstream exception → `AppError`
"Failed to fetch weather data" wrapping the original fault; success →
`TemperatureData` with the reading rounded half-up to a whole-degree string
and unit `"c"`. -/
def get_weather_data (location : String) (upstream : UpstreamOutcome) :
    Except WeatherFailure TemperatureData :=
  match upstream with
  | UpstreamOutcome.timeout =>
      Except.error (WeatherFailure.api
        (APIError.make 504 "Weather API timed out" none none none none))
  | UpstreamOutcome.httpError status =>
      if status = 404 then
        Except.error (WeatherFailure.api
          (APIError.make 404
            ("Weather data for " ++ location ++ " not found")
            none none none none))
      else if status = 401 then
        Except.error (WeatherFailure.api
          (APIError.make 400 "Invalid API key" none none none none))
      else
        Except.error (WeatherFailure.app
          (AppError.make "Failed to fetch weather data"
            (some (httpErrorExc status)) none none))
  | UpstreamOutcome.otherError exc =>
      Except.error (WeatherFailure.app
        (AppError.make "Failed to fetch weather data" (some exc) none none))
  | UpstreamOutcome.success temp =>
      Except.ok { temperature := toString (roundHalfUp temp), temp_unit := "c" }

theorem getKey_setKey_self (m : List (String × J)) (k : String) (v : J) :
    getKey (setKey m k v) k = some v := by
  induction m with
  | nil => simp [setKey, getKey, List.find?]
  | cons p m ih =>
      by_cases h : p.1 == k
      · simp [setKey, h, getKey, List.find?]
      · simpa [setKey, h, getKey, List.find?] using ih

theorem getKey_setKey_ne (m : List (String × J)) (a k : String) (v : J)
    (h : a ≠ k) : getKey (setKey m a v) k = getKey m k := by
  have hak : (a == k) = false := by simp [beq_iff_eq, h]
  induction m with
  | nil => simp [setKey, getKey, List.find?, hak]
  | cons p m ih =>
      by_cases hp : p.1 == a
      · have hp' : p.1 = a := by simpa [beq_iff_eq] using hp
        have hpk : (p.1 == k) = false := by simp [beq_iff_eq, hp', h]
        simp [setKey, hp, getKey, List.find?, hpk, hak]
      · by_cases hk : p.1 == k
        · simp [setKey, hp, getKey, List.find?, hk]
        · simpa [setKey, hp, getKey, List.find?, hk] using ih

theorem setKey_setKey_same (m : List (String × J)) (k : String) (v w : J) :
    setKey (setKey m k v) k w = setKey m k w := by
  induction m with
  | nil => simp [setKey]
  | cons p m ih =>
      by_cases h : p.1 == k
      · simp [setKey, h]
      · simp [setKey, h, ih]

theorem setKey_isEmpty (m : List (String × J)) (k : String) (v : J) :
    (setKey m k v).isEmpty = false := by
  cases m with
  | nil => simp [setKey]
  | cons p m =>
      by_cases h : p.1 == k <;> simp [setKey, h]

theorem keys_setKey (m : List (String × J)) (k : String) (v : J) :
    (setKey m k v).map Prod.fst =
      if k ∈ m.map Prod.fst then m.map Prod.fst
      else m.map Prod.fst ++ [k] := by
  induction m with
  | nil => simp [setKey]
  | cons p m ih =>
      by_cases h : p.1 == k
      · have : p.1 = k := by simpa [beq_iff_eq] using h
        simp [setKey, h, this]
      · have hne : k ≠ p.1 := by
          have : ¬p.1 = k := by simpa [beq_iff_eq] using h
          exact fun hk => this hk.symm
        by_cases hm : k ∈ m.map Prod.fst <;>
          simp [setKey, h, ih, hm, hne]

theorem nodup_keys_setKey (m : List (String × J)) (k : String) (v : J)
    (h : (m.map Prod.fst).Nodup) : ((setKey m k v).map Prod.fst).Nodup := by
  rw [keys_setKey]
  by_cases hm : k ∈ m.map Prod.fst
  · simpa [hm] using h
  · rw [if_neg hm]
    refine List.Nodup.append h (List.nodup_singleton k) ?_
    simpa [List.disjoint_singleton] using hm

theorem getKey_updateAssoc_not_mem (base ext : List (String × J)) (k : String)
    (h : k ∉ ext.map Prod.fst) :
    getKey (updateAssoc base ext) k = getKey base k := by
  induction ext generalizing base with
  | nil => rfl
  | cons p ext ih =>
      simp only [List.map_cons, List.mem_cons, not_or] at h
      have step : updateAssoc base (p :: ext) =
          updateAssoc (setKey base p.1 p.2) ext := rfl
      rw [step, ih _ h.2, getKey_setKey_ne _ _ _ _ (fun hp => h.1 hp.symm)]

theorem getKey_updateAssoc_of_getKey (base ext : List (String × J))
    (k : String) (v : J) (hnd : (ext.map Prod.fst).Nodup)
    (h : getKey ext k = some v) :
    getKey (updateAssoc base ext) k = some v := by
  induction ext generalizing base with
  | nil => simp [getKey, List.find?] at h
  | cons p ext ih =>
      simp only [List.map_cons, List.nodup_cons] at hnd
      have step : updateAssoc base (p :: ext) =
          updateAssoc (setKey base p.1 p.2) ext := rfl
      by_cases hp : p.1 == k
      · have hpk : p.1 = k := by simpa [beq_iff_eq] using hp
        have hv : p.2 = v := by
          simpa [getKey, List.find?, hp] using h
        have hnm : k ∉ ext.map Prod.fst := hpk ▸ hnd.1
        rw [step, getKey_updateAssoc_not_mem _ _ _ hnm, hpk, hv,
          getKey_setKey_self]
      · have h' : getKey ext k = some v := by
          simpa [getKey, List.find?, hp] using h
        rw [step, ih _ hnd.2 h']

theorem parse_dump_detail (d : ErrorDetail) :
    ErrorDetail.parse (ErrorDetail.dump d) = some d := by
  obtain ⟨loc, msg, ty, code⟩ := d
  cases loc <;> cases code <;>
    simp [ErrorDetail.dump, ErrorDetail.parse, optField, getKey, List.find?,
      parseOptStrField, parseStrJ]

theorem parse_dump_details_loop (l acc : List ErrorDetail) :
    List.mapM.loop parseDetailJ (l.map (fun d => J.obj d.dump)) acc =
      some (acc.reverse ++ l) := by
  induction l generalizing acc with
  | nil => simp [List.mapM.loop]
  | cons d l ih =>
      simp [List.mapM.loop, parseDetailJ, parse_dump_detail d, ih]

theorem parse_dump_details (l : List ErrorDetail) :
    (l.map (fun d => J.obj d.dump)).mapM parseDetailJ = some l := by
  simpa using parse_dump_details_loop l []

theorem getKey_dump_code (r : ErrorResponse) :
    getKey r.dump "code" = some (J.i r.code) := by
  simp [ErrorResponse.dump, getKey, List.find?]

theorem getKey_dump_error (r : ErrorResponse) :
    getKey r.dump "error" = some (J.s r.error) := by
  simp [ErrorResponse.dump, getKey, List.find?]

/-- C1 (code bug): the exception handlers cannot uphold the claimed
status-equals-code invariant because they crash: `handle_api_error` raises
`NameError` on every call (the undefined name `get_logger`, error.py line
282), `handle_app_error` and `handle_generic_exception` raise the same
`NameError` through it (or `AttributeError` first, on a request without a
stored correlation id), and the two validation handlers raise
`AttributeError` on a request without a stored correlation id.  Every
response that IS produced — the validation handlers on a request carrying a
correlation id — does have HTTP status equal to the body's `code`. -/
theorem handlers_crash_or_match_status :
    (∀ (req : Request) (exc : APIError),
      handle_api_error req exc = Except.error PyError.nameError) ∧
    (∀ (req : Request) (es : List ValidationItem),
      handle_validation_error req es = Except.error PyError.attributeError ∨
      ∃ resp, handle_validation_error req es = Except.ok resp ∧
        getKey resp.content "code" = some (J.i resp.status_code)) ∧
    (∀ (req : Request) (es : List ValidationItem),
      handle_pydantic_validation_error req es =
          Except.error PyError.attributeError ∨
      ∃ resp, handle_pydantic_validation_error req es = Except.ok resp ∧
        getKey resp.content "code" = some (J.i resp.status_code)) ∧
    (∀ (req : Request) (exc : AppError),
      handle_app_error req exc = Except.error PyError.nameError ∨
      handle_app_error req exc = Except.error PyError.attributeError) ∧
    (∀ (req : Request) (exc : PyExc) (tb : List String)
        (frame : List (String × J)),
      handle_generic_exception req exc tb frame =
          Except.error PyError.nameError ∨
      handle_generic_exception req exc tb frame =
          Except.error PyError.attributeError) := by
  refine ⟨fun req exc => rfl, fun req es => ?_, fun req es => ?_,
    fun req exc => ?_, fun req exc tb frame => ?_⟩
  · cases h : req.state.request_id with
    | none => exact Or.inl (by simp [handle_validation_error, h])
    | some rid =>
        refine Or.inr ⟨⟨422, (validationErrorResponse req es).dump, []⟩,
          by simp [handle_validation_error, h], ?_⟩
        simpa using getKey_dump_code (validationErrorResponse req es)
  · cases h : req.state.request_id with
    | none => exact Or.inl (by simp [handle_pydantic_validation_error, h])
    | some rid =>
        refine Or.inr ⟨⟨422, (pydanticValidationErrorResponse req es).dump,
          []⟩, by simp [handle_pydantic_validation_error, h], ?_⟩
        simpa using
          getKey_dump_code (pydanticValidationErrorResponse req es)
  · cases h : req.state.request_id with
    | none => exact Or.inr (by simp [handle_app_error, h])
    | some rid => exact Or.inl (by simp [handle_app_error, handle_api_error, h])
  · cases h : req.state.request_id with
    | none => exact Or.inr (by simp [handle_generic_exception, h])
    | some rid =>
        exact Or.inl (by simp [handle_generic_exception, handle_api_error, h])

/-- C2 (code bug): `handle_app_error` does build the claimed wrapper — the
`APIError` constructed at error.py lines 483-490 has status 500, slug
`internal_server_error`, the fixed generic message
"An internal server error occurred" (a constant, independent of the
`AppError`'s own message) and `details.app_error_message` /
`details.app_error_code` equal to the `AppError`'s message and code — but it
never returns the claimed response: with a stored correlation id the
delegate `handle_api_error` raises `NameError` (undefined `get_logger`,
error.py line 282), and without one `request_logger.error` raises
`AttributeError` first.  The middle conjunct evaluates the handler at the
concrete failing input `AppError("X failed")`. -/
theorem app_error_handler_never_returns :
    (∀ (req : Request) (exc : AppError),
      handle_app_error req exc = Except.error PyError.nameError ∨
      handle_app_error req exc = Except.error PyError.attributeError) ∧
    handle_app_error
      { state := { request_id := some "abc", trace_id := none,
                   span_id := none },
        path := "/hello", method := "GET", path_params := [],
        query_params := [] }
      (AppError.make "X failed" none none none) =
      Except.error PyError.nameError ∧
    (∀ (req : Request) (exc : AppError),
      (appErrorToApiError req exc).status_code = 500 ∧
      (appErrorToApiError req exc).error = "internal_server_error" ∧
      (appErrorToApiError req exc).message =
        "An internal server error occurred" ∧
      getKey (appErrorToApiError req exc).details "app_error_message" =
        some (J.s exc.message) ∧
      getKey (appErrorToApiError req exc).details "app_error_code" =
        some (jOfOptStr exc.error_code)) := by
  refine ⟨?_, rfl, fun req exc => ⟨rfl, by simp [appErrorToApiError,
      APIError.internal_server_error, APIError.make, defaultErrorCode,
      errorCodes, List.find?], rfl, ?_, ?_⟩⟩
  · intro req exc
    cases h : req.state.request_id with
    | none => exact Or.inr (by simp [handle_app_error, h])
    | some rid => exact Or.inl (by simp [handle_app_error, handle_api_error, h])
  · simp [appErrorToApiError, APIError.internal_server_error, APIError.make,
      updateAssoc, traceContext, setKey, getKey, List.find?]
  · simp [appErrorToApiError, APIError.internal_server_error, APIError.make,
      updateAssoc, traceContext, setKey, getKey, List.find?]

/-- C3: constructing an `APIError` without an explicit `error` yields exactly
the slug of the fixed table for the eleven listed status codes, and
`"http_<code>"` for every other status code. -/
theorem api_error_default_slug_table (msg : String)
    (d : Option (List (String × J))) (hd : Option (List (String × String)))
    (ctx : Option (List (String × J))) :
    (APIError.make 400 msg none d hd ctx).error = "bad_request" ∧
    (APIError.make 401 msg none d hd ctx).error = "unauthorized" ∧
    (APIError.make 403 msg none d hd ctx).error = "forbidden" ∧
    (APIError.make 404 msg none d hd ctx).error = "not_found" ∧
    (APIError.make 409 msg none d hd ctx).error = "conflict" ∧
    (APIError.make 422 msg none d hd ctx).error = "validation_error" ∧
    (APIError.make 429 msg none d hd ctx).error = "rate_limit_exceeded" ∧
    (APIError.make 500 msg none d hd ctx).error = "internal_server_error" ∧
    (APIError.make 502 msg none d hd ctx).error = "bad_gateway" ∧
    (APIError.make 503 msg none d hd ctx).error = "service_unavailable" ∧
    (APIError.make 504 msg none d hd ctx).error = "gateway_timeout" ∧
    ∀ c : Int,
      c ∉ ([400, 401, 403, 404, 409, 422, 429, 500, 502, 503, 504] :
        List Int) →
      (APIError.make c msg none d hd ctx).error = "http_" ++ toString c := by
  refine ⟨rfl, rfl, rfl, rfl, rfl, rfl, rfl, rfl, rfl, rfl, rfl, ?_⟩
  intro c hc
  simp only [List.mem_cons, not_or] at hc
  obtain ⟨h1, h2, h3, h4, h5, h6, h7, h8, h9, h10, h11, -⟩ := hc
  have e1 : ((400 : Int) == c) = false := by simp [beq_iff_eq]; omega
  have e2 : ((401 : Int) == c) = false := by simp [beq_iff_eq]; omega
  have e3 : ((403 : Int) == c) = false := by simp [beq_iff_eq]; omega
  have e4 : ((404 : Int) == c) = false := by simp [beq_iff_eq]; omega
  have e5 : ((409 : Int) == c) = false := by simp [beq_iff_eq]; omega
  have e6 : ((422 : Int) == c) = false := by simp [beq_iff_eq]; omega
  have e7 : ((429 : Int) == c) = false := by simp [beq_iff_eq]; omega
  have e8 : ((500 : Int) == c) = false := by simp [beq_iff_eq]; omega
  have e9 : ((502 : Int) == c) = false := by simp [beq_iff_eq]; omega
  have e10 : ((503 : Int) == c) = false := by simp [beq_iff_eq]; omega
  have e11 : ((504 : Int) == c) = false := by simp [beq_iff_eq]; omega
  simp [APIError.make, defaultErrorCode, errorCodes, List.find?,
    e1, e2, e3, e4, e5, e6, e7, e8, e9, e10, e11]

/-- Witness for C3 at the unlisted status code 418. -/
theorem api_error_default_slug_table_witness :
    (418 : Int) ∉
      ([400, 401, 403, 404, 409, 422, 429, 500, 502, 503, 504] : List Int) ∧
    (APIError.make 418 "teapot" none none none none).error = "http_418" :=
  ⟨by decide,
    ((api_error_default_slug_table "teapot" none none none).2.2.2.2.2.2.2.2.2.2.2
      418 (by decide)).trans (by decide)⟩

/-- C4 (code bug): on a request without a stored correlation id,
`handle_validation_error` raises `AttributeError` inside
`request_logger.warning` (error.py line 355, the same unguarded
`request.state.request_id` access as the C6 logger bug) and produces no
response at all — the first conjunct evaluates the handler at such a
failing input.  On a request that does carry a correlation id it returns
exactly the claimed response: status 422, slug `validation_error`, and an
`errors` list of length `n` whose entries carry the field paths joined by
" -> ". -/
theorem validation_handler_crashes_without_request_id :
    handle_validation_error
      { state := { request_id := none, trace_id := none, span_id := none },
        path := "/items", method := "POST", path_params := [],
        query_params := [] }
      [{ loc := some ["body", "name"], msg := some "Field required",
         type := some "missing" }] = Except.error PyError.attributeError ∧
    ∀ (rid path method : String) (tid sid : Option String)
        (pp qp : List (String × String)) (es : List ValidationItem),
      ∃ resp,
        handle_validation_error
          { state := { request_id := some rid, trace_id := tid,
                       span_id := sid },
            path := path, method := method, path_params := pp,
            query_params := qp } es = Except.ok resp ∧
        resp.status_code = 422 ∧
        getKey resp.content "error" = some (J.s "validation_error") ∧
        ∃ ds,
          (validationErrorResponse
            { state := { request_id := some rid, trace_id := tid,
                         span_id := sid },
              path := path, method := method, path_params := pp,
              query_params := qp } es).errors = some ds ∧
          ds.length = es.length ∧
          List.Forall₂ (fun (e : ValidationItem) (d : ErrorDetail) =>
            d.location = some (String.intercalate " -> " (e.loc.getD [])))
            es ds := by
  refine ⟨rfl, fun rid path method tid sid pp qp es => ?_⟩
  refine ⟨⟨422, (validationErrorResponse
      { state := { request_id := some rid, trace_id := tid, span_id := sid },
        path := path, method := method, path_params := pp,
        query_params := qp } es).dump, []⟩, rfl, rfl, ?_,
    es.map validationDetail, rfl, by simp, ?_⟩
  · simpa using getKey_dump_error (validationErrorResponse
      { state := { request_id := some rid, trace_id := tid, span_id := sid },
        path := path, method := method, path_params := pp,
        query_params := qp } es)
  · rw [List.forall₂_map_right_iff, List.forall₂_same]
    intro e _
    simp [validationDetail]

/-- C5: `get_weather_data` maps each upstream failure kind to its classified
fault: timeout → `APIError` 504 "Weather API timed out"; HTTP 404 →
`APIError` 404 "Weather data for {location} not found"; HTTP 401 →
`APIError` 400 "Invalid API key"; any other upstream exception → `AppError`
"Failed to fetch weather data" wrapping the original fault. -/
theorem weather_failure_classification (loc : String) (exc : PyExc) :
    (∃ e, get_weather_data loc UpstreamOutcome.timeout =
        Except.error (WeatherFailure.api e) ∧
      e.status_code = 504 ∧ e.message = "Weather API timed out") ∧
    (∃ e, get_weather_data loc (UpstreamOutcome.httpError 404) =
        Except.error (WeatherFailure.api e) ∧
      e.status_code = 404 ∧
      e.message = "Weather data for " ++ loc ++ " not found") ∧
    (∃ e, get_weather_data loc (UpstreamOutcome.httpError 401) =
        Except.error (WeatherFailure.api e) ∧
      e.status_code = 400 ∧ e.message = "Invalid API key") ∧
    (∃ a, get_weather_data loc (UpstreamOutcome.otherError exc) =
        Except.error (WeatherFailure.app a) ∧
      a.message = "Failed to fetch weather data" ∧
      a.original_error = some exc) := by
  refine ⟨⟨_, rfl, rfl, rfl⟩,
    ⟨APIError.make 404 ("Weather data for " ++ loc ++ " not found")
      none none none none, rfl, rfl, rfl⟩,
    ⟨APIError.make 400 "Invalid API key" none none none none, rfl, rfl, rfl⟩,
    ⟨_, rfl, rfl, rfl⟩⟩

/-- C8: `get_weather_data` formats the upstream reading 25.5 °C as the
whole-degree Celsius string "26" (round half up) with unit `"c"`. -/
theorem weather_temperature_rounding :
    get_weather_data "Dhaka" (UpstreamOutcome.success (51 / 2 : ℚ)) =
      Except.ok { temperature := "26", temp_unit := "c" } := by
  have h : roundHalfUp (51 / 2 : ℚ) = 26 := by
    unfold roundHalfUp
    rw [show ((51 : ℚ) / 2 + 1 / 2) = 26 by norm_num]
    rw [Rat.floor_def']
    norm_num
  simp only [get_weather_data, h]
  rfl

/-- Counterexample to C9 as stated ("with any arguments"): with the
unrecognized level name "BOGUS", `Logger.setup` raises `ValueError` from
`setLevel` before the handler list is touched, so two such calls starting
from a fresh logger leave zero attached handlers, not one. -/
theorem logger_setup_bogus_counterexample :
    Logger.setup { level := "NOTSET", handlers := [], propagate := true }
        "BOGUS" true = Except.error PyError.valueError ∧
    (Logger.setupState
      (Logger.setupState
        { level := "NOTSET", handlers := [], propagate := true }
        "BOGUS" true) "BOGUS" true).handlers.length = 0 := by
  exact ⟨rfl, rfl⟩

/-- C9 amended: for recognized logging level names, `Logger.setup` is
idempotent with respect to output sinks — each call clears all existing
handlers before attaching a single new one, so after two calls (any
recognized levels, any formats) exactly one handler is attached; for an
unrecognized level name `setup` raises `ValueError` before the handler list
is touched. -/
theorem logger_setup_idempotent_valid_levels (logger : LoggerState)
    (lvl1 lvl2 : String) (json1 json2 : Bool)
    (h1 : lvl1.pyUpper ∈ levelNames)
    (h2 : lvl2.pyUpper ∈ levelNames) :
    (Logger.setupState (Logger.setupState logger lvl1 json1) lvl2
        json2).handlers.length = 1 ∧
    (Logger.setupState logger lvl1 json1).handlers.length = 1 := by
  cases json1 <;> cases json2 <;>
    simp [Logger.setupState, Logger.setup, h1, h2]

/-- Witness for the amended C9 at the recognized level names "info" and
"DEBUG". -/
theorem logger_setup_idempotent_valid_levels_witness :
    (Logger.setupState (Logger.setupState
      { level := "NOTSET", handlers := [], propagate := true }
      "info" true) "DEBUG" false).handlers.length = 1 ∧
    (Logger.setupState { level := "NOTSET", handlers := [], propagate := true }
      "info" true).handlers.length = 1 :=
  logger_setup_idempotent_valid_levels
    { level := "NOTSET", handlers := [], propagate := true }
    "info" "DEBUG" true false (by decide) (by decide)

/-- C6 (code bug): a log call through the request-scoped logger of
`get_request_logger` raises `AttributeError` when the request carries no
stored correlation id (`kwargs["request_id"] = request.state.request_id`
reads the attribute without a fallback), instead of omitting the field; the
omission behaviour the spec describes exists only at the formatter level
(second conjunct: a record without the attribute yields no `request_id`
key). -/
theorem request_logger_raises_without_request_id :
    requestLoggerInfo
      { state := { request_id := none, trace_id := none, span_id := none },
        path := "/health", method := "GET", path_params := [],
        query_params := [] }
      { timestamp := "2023-07-15T22:30:00+00:00", module := "weather",
        funcName := "health_check", lineno := 14 }
      "Fetching user profile" [] = Except.error PyError.attributeError ∧
    getKey (JSONFormatter.format
      { levelname := "INFO",
        src := { timestamp := "2023-07-15T22:30:00+00:00",
                 module := "weather", funcName := "health_check",
                 lineno := 14 },
        message := "Fetching user profile", request_id := none,
        exc_info := none, extra := none }) "request_id" = none :=
  ⟨rfl, rfl⟩

/-- C10: every log call through the request-scoped logger records the
request's stored correlation id, silently overwriting any caller-supplied
`request_id` keyword: two calls differing only in that keyword produce the
same log entry. -/
theorem request_logger_overwrites_request_id (req : Request)
    (src : SourceInfo) (rid msg : String) (kwargs : List (String × J))
    (v w : J) (hrid : req.state.request_id = some rid)
    (hnd : (kwargs.map Prod.fst).Nodup) :
    (∃ entry,
      requestLoggerInfo req src msg (setKey kwargs "request_id" v) =
        Except.ok entry ∧
      getKey entry "request_id" = some (J.s rid)) ∧
    requestLoggerInfo req src msg (setKey kwargs "request_id" v) =
      requestLoggerInfo req src msg (setKey kwargs "request_id" w) := by
  have hmain : requestLoggerInfo req src msg (setKey kwargs "request_id" v) =
      Except.ok (JSONFormatter.format
        { levelname := "INFO", src := src, message := msg,
          request_id := none, exc_info := none,
          extra := some (setKey kwargs "request_id" (J.s rid)) }) := by
    simp [requestLoggerInfo, hrid, setKey_setKey_same]
  refine ⟨⟨_, hmain, ?_⟩, ?_⟩
  · have hnd2 : ((setKey kwargs "request_id" (J.s rid)).map Prod.fst).Nodup :=
      nodup_keys_setKey _ _ _ hnd
    have hget : getKey (setKey kwargs "request_id" (J.s rid)) "request_id" =
        some (J.s rid) := getKey_setKey_self _ _ _
    simp only [JSONFormatter.format, setKey_isEmpty, Bool.false_eq_true,
      if_false]
    exact getKey_updateAssoc_of_getKey _ _ _ _ hnd2 hget
  · simp [requestLoggerInfo, hrid, setKey_setKey_same]

/-- Witness for C10 at a concrete request carrying correlation id "abc" and
a caller-spoofed `request_id`. -/
theorem request_logger_overwrites_request_id_witness :
    (∃ entry,
      requestLoggerInfo
        { state := { request_id := some "abc", trace_id := none,
                     span_id := none },
          path := "/hello", method := "GET", path_params := [],
          query_params := [] }
        { timestamp := "t", module := "m", funcName := "f", lineno := 1 }
        "msg" (setKey [("user_id", J.s "42")] "request_id" (J.s "spoofed")) =
          Except.ok entry ∧
      getKey entry "request_id" = some (J.s "abc")) ∧
    requestLoggerInfo
      { state := { request_id := some "abc", trace_id := none,
                   span_id := none },
        path := "/hello", method := "GET", path_params := [],
        query_params := [] }
      { timestamp := "t", module := "m", funcName := "f", lineno := 1 }
      "msg" (setKey [("user_id", J.s "42")] "request_id" (J.s "spoofed")) =
    requestLoggerInfo
      { state := { request_id := some "abc", trace_id := none,
                   span_id := none },
        path := "/hello", method := "GET", path_params := [],
        query_params := [] }
      { timestamp := "t", module := "m", funcName := "f", lineno := 1 }
      "msg" (setKey [("user_id", J.s "42")] "request_id" (J.s "other")) :=
  request_logger_overwrites_request_id
    { state := { request_id := some "abc", trace_id := none,
                 span_id := none },
      path := "/hello", method := "GET", path_params := [],
      query_params := [] }
    { timestamp := "t", module := "m", funcName := "f", lineno := 1 }
    "abc" "msg" [("user_id", J.s "42")] (J.s "spoofed") (J.s "other")
    rfl (by decide)

/-- C7: serializing an `ErrorResponse` with `exclude_none=True` and parsing
the result back yields the original value, and the serialized form contains
exactly the keys of the set fields: the three required fields always, each
optional field iff it is not `None`. -/
theorem error_response_roundtrip (r : ErrorResponse) :
    ErrorResponse.parse (ErrorResponse.dump r) = some r ∧
    "code" ∈ (ErrorResponse.dump r).map Prod.fst ∧
    "message" ∈ (ErrorResponse.dump r).map Prod.fst ∧
    "error" ∈ (ErrorResponse.dump r).map Prod.fst ∧
    (("request_id" ∈ (ErrorResponse.dump r).map Prod.fst) ↔
      r.request_id.isSome = true) ∧
    (("trace_id" ∈ (ErrorResponse.dump r).map Prod.fst) ↔
      r.trace_id.isSome = true) ∧
    (("details" ∈ (ErrorResponse.dump r).map Prod.fst) ↔
      r.details.isSome = true) ∧
    (("errors" ∈ (ErrorResponse.dump r).map Prod.fst) ↔
      r.errors.isSome = true) := by
  obtain ⟨c, m, e, rid, tid, det, errs⟩ := r
  cases rid <;> cases tid <;> cases det <;> cases errs <;>
    simp [ErrorResponse.dump, ErrorResponse.parse, optField, getKey,
      List.find?, parseOptStrField, parseStrJ, parseIntJ, parseOptObjField,
      parseOptErrorsField, parse_dump_details_loop]
